import Mathlib

/-!
Shallow embedding of `cognigraph/nodes/node.py`: the `Node` invalidation
protocol (attribute-mutation interception, upstream-change detection,
reset/reinitialize scheduling, ancestor traversal) and the `SourceNode`
lifetime/expiry extension.

Modelling conventions:
* Python attribute values are modelled as `Option Nat`: `none` is Python
  `None`, `some n` stands for any other value (values are only stored,
  compared for equality and passed around by the protocol).
* The data attributes of a node (its `__dict__` restricted to the
  subclass-declared data attributes that ancestor traversal may look up)
  are an association list `attrs`.  The protocol-internal fields
  (`output`, `there_has_been_a_change`, `_should_initialize_flag`,
  `_should_reset`, `_saved_from_upstream`) are separate record fields;
  protocol-internal writes such as `self.output = None` are modelled as
  direct field updates, under the standing assumption that the
  subclass validator accepts them and that no protocol-internal name
  appears in `CHANGES_IN_THESE_REQUIRE_RESET`.
* The flags `_should_initialize_flag` / `_should_reset` are assigned the
  Python values `True`, `False` and the integer `1` and are consulted
  with `is True`; `PyFlag` keeps the three values distinct and
  `PyFlag.isTrue` models the `is True` identity test (`1 is True` is
  false in Python).
* `self.input_node` chains are modelled by passing the list of ancestors
  (immediate predecessor first); Python exceptions are modelled by an
  `Option PyErr` (or `Except PyErr`) result alongside the state that has
  been mutated so far, matching the mutate-as-you-go semantics of Python.
* The abstract subclass hooks `_initialize`, `reset` and `_update` have
  no body in `node.py`; the model records their execution in a `log`
  field, and `_update` is parametrised by the subclass compute function
  `compute : NodeState -> Option Nat` that produces the new `output`.
* `class_name_of` lives in `cognigraph/helpers/misc.py`, which is not
  part of the sources; per the spec it names the type of the requesting node,
  modelled by the `className` field.
-/

/-- The three Python values the scheduling flags ever hold: `True`,
`False`, and the integer `1` (assigned by `Node.__setattr__`). -/
inductive PyFlag
  | pyTrue
  | pyFalse
  | pyOne
  deriving DecidableEq, Repr

/-- Model of the Python identity test `flag is True`: the integer `1` is
truthy but `1 is True` is `False`. -/
def PyFlag.isTrue : PyFlag → Bool
  | PyFlag.pyTrue => true
  | _ => false

/-- Execution record of the abstract subclass hooks. -/
inductive Op
  | opInitialize
  | opReset
  | opUpdate
  deriving DecidableEq, Repr

/-- Python exceptions raised by the protocol. -/
inductive PyErr
  | invalidConfiguration
  | missingUpstreamAttribute (cls item : String)
  | attributeError
  | typeError
  deriving DecidableEq, Repr

/-- State of a `Node` object (`Node.__init__` fields plus the
per-subclass constants and the hook-execution log). -/
structure NodeState where
  className : String
  attrs : List (String × Option Nat)
  output : Option Nat
  there_has_been_a_change : Bool
  should_initialize_flag : PyFlag
  should_reset : PyFlag
  saved_from_upstream : Option (List (String × Option Nat))
  resetTriggers : List String
  reinitTriggers : List String
  log : List Op
  deriving DecidableEq, Repr

/-- Model of `getattr(n, item)` on the modelled data attributes: `some v` when the
attribute exists (with Python value `v`, possibly `None`), `none` when
looking it up raises `AttributeError`. -/
def getattrOn (n : NodeState) (item : String) : Option (Option Nat) :=
  n.attrs.lookup item

/-- Python dict/`__dict__` assignment on an association list: overwrite
the existing binding or append a new one. -/
def setAttrVal : List (String × Option Nat) → String → Option Nat → List (String × Option Nat)
  | [], k, v => [(k, v)]
  | (k', v') :: rest, k, v =>
      if k' = k then (k, v) :: rest else (k', v') :: setAttrVal rest k v

/-- Model of `Node.traverse_back_and_find(self, item)`, for a node of class
`cls` whose ancestor chain (immediate predecessor first) is
`ancestors`.  `getattr(self.input_node, item)` is tried first; on
`AttributeError` the predecessor recurses; a failure of the recursive
call is re-raised naming the class of the requesting node and the item.  An
empty ancestor list models `input_node is None`, where both attempts
raise `AttributeError`. -/
def traverse_back_and_find (cls : String) (ancestors : List NodeState) (item : String) :
    Except PyErr (Option Nat) :=
  match ancestors with
  | [] => Except.error (PyErr.missingUpstreamAttribute cls item)
  | pred :: rest =>
      match getattrOn pred item with
      | some v => Except.ok v
      | none =>
          match traverse_back_and_find pred.className rest item with
          | Except.ok v => Except.ok v
          | Except.error _ => Except.error (PyErr.missingUpstreamAttribute cls item)

/-- Model of `Node.__setattr__(self, key, value)` for a subclass whose
`_check_value` is `check`: validate first (raising leaves the state
untouched), then if `key` is in `CHANGES_IN_THESE_REQUIRE_RESET` set
`_should_reset = 1` (the integer!) and `there_has_been_a_change = True`,
then commit the attribute. -/
def node_setattr (check : String → Option Nat → Bool) (s : NodeState)
    (key : String) (value : Option Nat) : NodeState × Option PyErr :=
  if check key value then
    let s1 :=
      if s.resetTriggers.contains key then
        { s with should_reset := PyFlag.pyOne, there_has_been_a_change := true }
      else s
    ({ s1 with attrs := setAttrVal s1.attrs key value }, none)
  else
    (s, some PyErr.invalidConfiguration)

/-- Model of `Node._there_was_a_change_upstream`: the immediate predecessor
exists and its `there_has_been_a_change is True`. -/
def there_was_a_change_upstream (ancestors : List NodeState) : Bool :=
  match ancestors with
  | [] => false
  | pred :: _ => pred.there_has_been_a_change

/-- The loop body of `Node._the_change_requires_reinitialization`: scan
the saved snapshot items in order; the first item whose current
ancestor-traversed value differs from the saved one yields `True`; a
traversal failure propagates. -/
def reinit_scan (cls : String) (ancestors : List NodeState) :
    List (String × Option Nat) → Except PyErr Bool
  | [] => Except.ok false
  | (item, value) :: rest =>
      match traverse_back_and_find cls ancestors item with
      | Except.error e => Except.error e
      | Except.ok cur =>
          if value ≠ cur then Except.ok true else reinit_scan cls ancestors rest

/-- Model of `Node._the_change_requires_reinitialization`: iterate over
`_saved_from_upstream.items()`; when the snapshot is still `None`
(node never initialized) this raises `AttributeError`
(`None` has no `.items`). -/
def the_change_requires_reinitialization (s : NodeState) (ancestors : List NodeState) :
    Except PyErr Bool :=
  match s.saved_from_upstream with
  | none => Except.error PyErr.attributeError
  | some snap => reinit_scan s.className ancestors snap

/-- Model of `Node._react_to_the_change_upstream`: decide reinit vs reset, then
clear the flag of the predecessor and raise our own.  A failure of the
decision propagates before any flag is touched.  The empty-ancestors
case models `input_node is None` (attribute assignment on `None`
raises); `update` only calls this when a predecessor exists. -/
def node_react (s : NodeState) (ancestors : List NodeState) :
    NodeState × List NodeState × Option PyErr :=
  match the_change_requires_reinitialization s ancestors with
  | Except.error e => (s, ancestors, some e)
  | Except.ok b =>
      let s1 :=
        if b then { s with should_initialize_flag := PyFlag.pyTrue }
        else { s with should_reset := PyFlag.pyTrue }
      match ancestors with
      | [] => (s1, [], some PyErr.attributeError)
      | pred :: rest =>
          ({ s1 with there_has_been_a_change := true },
           ({ pred with there_has_been_a_change := false } :: rest, none))

/-- The dict comprehension in `Node.initialize`: traverse for every name
in `UPSTREAM_CHANGES_IN_THESE_REQUIRE_REINITIALIZATION`, in order; the
first traversal failure aborts the whole comprehension. -/
def build_snapshot (cls : String) (ancestors : List NodeState) :
    List String → Except PyErr (List (String × Option Nat))
  | [] => Except.ok []
  | item :: rest =>
      match traverse_back_and_find cls ancestors item with
      | Except.error e => Except.error e
      | Except.ok v =>
          match build_snapshot cls ancestors rest with
          | Except.error e => Except.error e
          | Except.ok snap => Except.ok ((item, v) :: snap)

/-- Model of `Node.initialize`: rebuild `_saved_from_upstream` from the
ancestors (a failure leaves the old snapshot in place, since the
assignment happens only after the comprehension completes), then run
the subclass `_initialize` hook (recorded in the log). -/
def node_initialize_step (s : NodeState) (ancestors : List NodeState) : NodeState × Option PyErr :=
  match build_snapshot s.className ancestors s.reinitTriggers with
  | Except.error e => (s, some e)
  | Except.ok snap =>
      ({ s with saved_from_upstream := some snap, log := s.log ++ [Op.opInitialize] }, none)

/-- Model of `Node._reset_or_reinitialize_if_needed`: run `initialize` when
`_should_initialize_flag is True`, else `reset` when `_should_reset is True`
(note the identity test: the integer `1` fails it), then clear both
flags — unless an exception escaped `initialize`, in which case the
clearing assignments are never reached. -/
def node_reset_or_reinit (s : NodeState) (ancestors : List NodeState) :
    NodeState × Option PyErr :=
  if s.should_initialize_flag.isTrue then
    match node_initialize_step s ancestors with
    | (s1, some e) => (s1, some e)
    | (s1, none) =>
        ({ s1 with should_initialize_flag := PyFlag.pyFalse, should_reset := PyFlag.pyFalse }, none)
  else if s.should_reset.isTrue then
    ({ s with log := s.log ++ [Op.opReset],
              should_initialize_flag := PyFlag.pyFalse, should_reset := PyFlag.pyFalse }, none)
  else
    ({ s with should_initialize_flag := PyFlag.pyFalse, should_reset := PyFlag.pyFalse }, none)

/-- The subclass `_update` hook: compute the `output` of this cycle from the
current state (possibly leaving it absent) and record the execution. -/
def node_run_update (compute : NodeState → Option Nat) (s : NodeState) : NodeState :=
  { s with output := compute s, log := s.log ++ [Op.opUpdate] }

/-- The tail of `Node.update` common to both paths: resolve the pending
flags (an escaping exception aborts the pull there), then run the
subclass compute step. -/
def update_after_react (compute : NodeState → Option Nat) (s1 : NodeState)
    (anc1 : List NodeState) : (NodeState × List NodeState) × Option PyErr :=
  match node_reset_or_reinit s1 anc1 with
  | (s2, some e) => ((s2, anc1), some e)
  | (s2, none) => ((node_run_update compute s2, anc1), none)

/-- Model of `Node.update`: clear `output`, react to an upstream change if the
flag of the predecessor is up, resolve the pending flags, then run the
subclass compute step.  Returns the node, its (possibly updated)
ancestor list, and the exception that escaped, if any. -/
def node_update (compute : NodeState → Option Nat) (s : NodeState)
    (ancestors : List NodeState) : (NodeState × List NodeState) × Option PyErr :=
  if there_was_a_change_upstream ancestors then
    match node_react { s with output := none } ancestors with
    | (s1, _, some e) => ((s1, ancestors), some e)
    | (s1, anc1, none) => update_after_react compute s1 anc1
  else
    update_after_react compute { s with output := none } ancestors

/-- Model of `Node.__init__` for a subclass of class name `cls` with the given
trigger constants and initial data attributes. -/
def mkNode (cls : String) (rt rit : List String) (attrs0 : List (String × Option Nat)) :
    NodeState :=
  { className := cls
    attrs := attrs0
    output := none
    there_has_been_a_change := false
    should_initialize_flag := PyFlag.pyTrue
    should_reset := PyFlag.pyFalse
    saved_from_upstream := none
    resetTriggers := rt
    reinitTriggers := rit
    log := [] }

/-- State of a `SourceNode`: the `Node` part plus the self-destruction
fields.  `is_alive_attr = none` models the `_is_alive` attribute never
having been created (the constructor creates it only when a lifetime was
configured); `birthtime = none` models Python `None`. -/
structure SourceState where
  node : NodeState
  should_self_destruct : Bool
  birthtime : Option Nat
  seconds_to_live : Option Nat
  is_alive_attr : Option Bool
  deriving DecidableEq, Repr

/-- Model of `SourceNode.__init__(seconds_to_live)`: the five data attributes are
set to `None`; the self-destruction fields exist only when a lifetime
was passed. -/
def mkSourceNode (cls : String) (rt : List String) (ttl : Option Nat) : SourceState :=
  { node := mkNode cls rt []
      [("frequency", none), ("dtype", none), ("channel_count", none),
       ("channel_labels", none), ("source_name", none)]
    should_self_destruct := ttl.isSome
    birthtime := none
    seconds_to_live := ttl
    is_alive_attr := if ttl.isSome then some true else none }

/-- Model of `SourceNode.initialize` at wall-clock time `now`: the `Node.initialize`
snapshot comprehension over the empty
`UPSTREAM_CHANGES_IN_THESE_REQUIRE_REINITIALIZATION` tuple yields the
empty dict, then `SourceNode._initialize` records `_birthtime` when a
lifetime was configured. -/
def source_initialize_step (now : Nat) (s : SourceState) : SourceState :=
  { s with
    node := { s.node with saved_from_upstream := some [], log := s.node.log ++ [Op.opInitialize] }
    birthtime := if s.should_self_destruct then some now else s.birthtime }

/-- The expiry step of the `SourceNode.is_alive` property at wall-clock
time `now`: when self-destruction is configured, compare `now` against
`_birthtime + _seconds_to_live` (raising `TypeError` when `_birthtime`
is still `None`, since `None + int` is unsupported) and latch
`_is_alive = False` once the lifetime is exceeded. -/
def source_expire (now : Nat) (s : SourceState) : Except PyErr SourceState :=
  if s.should_self_destruct then
    match s.birthtime, s.seconds_to_live with
    | some bt, some ttl =>
        Except.ok (if bt + ttl < now then { s with is_alive_attr := some false } else s)
    | _, _ => Except.error PyErr.typeError
  else
    Except.ok s

/-- The `SourceNode.is_alive` property read at wall-clock time `now`:
run the expiry step, then return `_is_alive` (raising `AttributeError`
when that attribute was never created). -/
def source_is_alive (now : Nat) (s : SourceState) : Except PyErr (SourceState × Bool) :=
  match source_expire now s with
  | Except.error e => Except.error e
  | Except.ok s1 =>
      match s1.is_alive_attr with
      | some b => Except.ok (s1, b)
      | none => Except.error PyErr.attributeError

/-- Modelled from the spec: the compute step (`_update`) of a concrete
source.  `SourceNode._update` in the sources delegates to the abstract
`Node._update`, and the concrete source subclasses that supply the real
compute step are not part of the sources; per the spec, a source whose
`is_alive` is false stops producing output (compute is a no-op leaving
`output` absent), and an alive source may populate `output` with fresh
data (`data` here). -/
def source_compute (now : Nat) (data : Option Nat) (s : SourceState) :
    Except PyErr SourceState :=
  match source_is_alive now s with
  | Except.error e => Except.error e
  | Except.ok (s1, alive) =>
      if alive then
        Except.ok { s1 with node := { s1.node with output := data } }
      else
        Except.ok s1

example :
    (node_setattr (fun _ _ => true)
      (mkNode "N" ["foo"] [] [("foo", some 1)]) "foo" (some 2)).1.should_reset
      = PyFlag.pyOne := by decide

example :
    traverse_back_and_find "N" [mkNode "P" [] [] [("a", some 3)]] "a"
      = Except.ok (some 3) := rfl

/-- The scan of `_the_change_requires_reinitialization` answers `true`
exactly when the current ancestor-traversed value of some snapshot entry
differs from the saved one (given that the scan ran to a verdict). -/
theorem reinit_scan_ok_iff {cls : String} {anc : List NodeState}
    {snap : List (String × Option Nat)} {b : Bool}
    (h : reinit_scan cls anc snap = Except.ok b) :
    b = true ↔ ∃ p ∈ snap, ∃ c,
      traverse_back_and_find cls anc p.1 = Except.ok c ∧ c ≠ p.2 := by
  induction snap generalizing b with
  | nil =>
      simp only [reinit_scan, Except.ok.injEq] at h
      subst h
      simp
  | cons q rest ih =>
      obtain ⟨item, value⟩ := q
      cases htr : traverse_back_and_find cls anc item with
      | error e =>
          simp only [reinit_scan, htr] at h
          exact Except.noConfusion h
      | ok cur =>
          simp only [reinit_scan, htr] at h
          by_cases hv : value = cur
          · rw [if_neg (fun hc => hc hv)] at h
            have hrec := ih h
            constructor
            · intro hb
              obtain ⟨p, hp, c, hc, hne⟩ := hrec.mp hb
              exact ⟨p, List.mem_cons_of_mem _ hp, c, hc, hne⟩
            · rintro ⟨p, hp, c, hc, hne⟩
              rcases List.mem_cons.mp hp with h1 | h1
              · subst h1
                rw [htr] at hc
                injection hc with hc
                exact absurd (hc.symm.trans hv.symm) hne
              · exact hrec.mpr ⟨p, h1, c, hc, hne⟩
          · rw [if_pos hv] at h
            injection h with h
            subst h
            constructor
            · intro _
              exact ⟨(item, value), List.mem_cons_self _ _, cur, htr,
                     fun hc => hv hc.symm⟩
            · intro _
              rfl

/-- Behaviour of `_react_to_the_change_upstream` on a node with a predecessor, when
the reinit decision reaches a verdict: the changed flag of the node goes
up, that of the predecessor goes down, no exception escapes. -/
theorem node_react_ok (s pred : NodeState) (rest : List NodeState) (b : Bool)
    (hok : the_change_requires_reinitialization s (pred :: rest) = Except.ok b) :
    ∃ s1, node_react s (pred :: rest) =
        (s1, ({ pred with there_has_been_a_change := false } :: rest, none)) ∧
      s1.there_has_been_a_change = true := by
  unfold node_react
  rw [hok]
  cases b
  · exact ⟨_, rfl, rfl⟩
  · exact ⟨_, rfl, rfl⟩

/-- Invariance: `_react_to_the_change_upstream` never touches `output`. -/
theorem node_react_preserves_output (s : NodeState) (anc : List NodeState) :
    ((node_react s anc).1).output = s.output := by
  unfold node_react
  cases h : the_change_requires_reinitialization s anc with
  | error e => rfl
  | ok b => cases anc <;> cases b <;> rfl

/-- Invariance: `_reset_or_reinitialize_if_needed` never touches the changed flag
nor `output`. -/
theorem reset_or_reinit_preserves (s : NodeState) (anc : List NodeState) :
    ((node_reset_or_reinit s anc).1).there_has_been_a_change
        = s.there_has_been_a_change ∧
      ((node_reset_or_reinit s anc).1).output = s.output := by
  unfold node_reset_or_reinit node_initialize_step
  by_cases hi : s.should_initialize_flag.isTrue = true
  · simp only [hi, if_true]
    cases h : build_snapshot s.className anc s.reinitTriggers <;> simp [h]
  · by_cases hr : s.should_reset.isTrue = true <;> simp [hi, hr]

/-- Equation: the tail of `update` when flag resolution succeeds. -/
theorem update_after_react_of_ok (compute : NodeState → Option Nat)
    (s1 : NodeState) (anc1 : List NodeState) (s2 : NodeState)
    (h : node_reset_or_reinit s1 anc1 = (s2, none)) :
    update_after_react compute s1 anc1 = ((node_run_update compute s2, anc1), none) := by
  unfold update_after_react
  rw [h]

/-- Equation: the tail of `update` when flag resolution raises. -/
theorem update_after_react_of_err (compute : NodeState → Option Nat)
    (s1 : NodeState) (anc1 : List NodeState) (s2 : NodeState) (e : PyErr)
    (h : node_reset_or_reinit s1 anc1 = (s2, some e)) :
    update_after_react compute s1 anc1 = ((s2, anc1), some e) := by
  unfold update_after_react
  rw [h]

/-- Equation: `update` when the predecessor reported no change. -/
theorem node_update_of_no_change (compute : NodeState → Option Nat)
    (s : NodeState) (anc : List NodeState)
    (h : there_was_a_change_upstream anc = false) :
    node_update compute s anc = update_after_react compute { s with output := none } anc := by
  unfold node_update
  rw [h]
  rfl

/-- Equation: `update` when the predecessor reported a change and
reacting succeeded. -/
theorem node_update_of_change_ok (compute : NodeState → Option Nat)
    (s : NodeState) (anc : List NodeState) (s1 : NodeState) (anc1 : List NodeState)
    (h : there_was_a_change_upstream anc = true)
    (hr : node_react { s with output := none } anc = (s1, anc1, none)) :
    node_update compute s anc = update_after_react compute s1 anc1 := by
  unfold node_update
  rw [h, hr]
  rfl

/-- Equation: `update` when the predecessor reported a change and
reacting raised. -/
theorem node_update_of_change_err (compute : NodeState → Option Nat)
    (s : NodeState) (anc : List NodeState) (s1 : NodeState) (anc1 : List NodeState)
    (e : PyErr)
    (h : there_was_a_change_upstream anc = true)
    (hr : node_react { s with output := none } anc = (s1, anc1, some e)) :
    node_update compute s anc = ((s1, anc), some e) := by
  unfold node_update
  rw [h, hr]
  rfl

/-- C2: during `update()`, when the changed flag of the predecessor was true,
`_react_to_the_change_upstream` sets `_should_initialize_flag` to `True` if
and only if some snapshot entry (the snapshot keys being the
`reinit_triggers` names) has an ancestor-traversed current value that
differs from the saved one; otherwise (the flag staying down) it sets
`_should_reset` to `True`.  No exception escapes. -/
theorem react_sets_initialize_iff_snapshot_differs
    (s pred : NodeState) (rest : List NodeState)
    (snap : List (String × Option Nat)) (b : Bool)
    (hflag : pred.there_has_been_a_change = true)
    (hsnap : s.saved_from_upstream = some snap)
    (hkeys : snap.map Prod.fst = s.reinitTriggers)
    (hinit : s.should_initialize_flag = PyFlag.pyFalse)
    (hscan : reinit_scan s.className (pred :: rest) snap = Except.ok b) :
    (let r := node_react s (pred :: rest)
     r.2.2 = none ∧
     (r.1.should_initialize_flag = PyFlag.pyTrue ↔
       ∃ p ∈ snap, ∃ c,
         traverse_back_and_find s.className (pred :: rest) p.1 = Except.ok c ∧
           c ≠ p.2) ∧
     (r.1.should_initialize_flag = PyFlag.pyFalse → r.1.should_reset = PyFlag.pyTrue)) := by
  have hiff := reinit_scan_ok_iff hscan
  have hd : the_change_requires_reinitialization s (pred :: rest) = Except.ok b := by
    unfold the_change_requires_reinitialization
    rw [hsnap]
    exact hscan
  unfold node_react
  rw [hd]
  cases b with
  | true =>
      refine ⟨rfl, ?_, ?_⟩
      · simpa using hiff
      · intro hcontra
        exact absurd hcontra (by simp)
  | false =>
      refine ⟨rfl, ?_, fun _ => rfl⟩
      simp only [hinit]
      constructor
      · intro hcontra
        exact absurd hcontra (by simp)
      · intro hex
        exact absurd (hiff.mpr hex) (by simp)

/-- Witness for C2 on a two-node chain where the traversed value of the
single snapshot entry has changed (so initialize is scheduled). -/
theorem react_sets_initialize_iff_snapshot_differs_witness :
    (let pred := { mkNode "P" [] [] [("a", some 2)] with
                     there_has_been_a_change := true }
     let s := { mkNode "N" [] ["a"] [] with
                  should_initialize_flag := PyFlag.pyFalse,
                  saved_from_upstream := some [("a", some 1)] }
     pred.there_has_been_a_change = true ∧
     s.saved_from_upstream = some [("a", some 1)] ∧
     [("a", (some 1 : Option Nat))].map Prod.fst = s.reinitTriggers ∧
     s.should_initialize_flag = PyFlag.pyFalse ∧
     reinit_scan s.className [pred] [("a", some 1)] = Except.ok true ∧
     (let r := node_react s [pred]
      r.2.2 = none ∧
      (r.1.should_initialize_flag = PyFlag.pyTrue ↔
        ∃ p ∈ [(("a" : String), (some 1 : Option Nat))], ∃ c,
          traverse_back_and_find s.className [pred] p.1 = Except.ok c ∧
            c ≠ p.2) ∧
      (r.1.should_initialize_flag = PyFlag.pyFalse → r.1.should_reset = PyFlag.pyTrue))) :=
  ⟨rfl, rfl, rfl, rfl, rfl,
   react_sets_initialize_iff_snapshot_differs _ _ [] [("a", some 1)] true
     rfl rfl rfl rfl rfl⟩

/-- C4: one-hop propagation: if the changed flag of A is up before the cycle
and B (whose reinit decision reaches a verdict) is pulled, then after
the cycle the flag of A is down and that of B is up, whatever the rest of the
pull did. -/
theorem change_flag_propagates_one_hop
    (compute : NodeState → Option Nat) (B A : NodeState) (rest : List NodeState)
    (b : Bool)
    (hA : A.there_has_been_a_change = true)
    (hok : the_change_requires_reinitialization { B with output := none }
             (A :: rest) = Except.ok b) :
    ∃ B' exc, node_update compute B (A :: rest) =
        ((B', { A with there_has_been_a_change := false } :: rest), exc) ∧
      B'.there_has_been_a_change = true := by
  obtain ⟨s1, hr, hs1⟩ := node_react_ok { B with output := none } A rest b hok
  have hup : there_was_a_change_upstream (A :: rest) = true := hA
  have hu := node_update_of_change_ok compute B (A :: rest) s1
    ({ A with there_has_been_a_change := false } :: rest) hup hr
  cases h2 : node_reset_or_reinit s1
      ({ A with there_has_been_a_change := false } :: rest) with
  | mk s2 exc2 =>
      have hpre := (reset_or_reinit_preserves s1
        ({ A with there_has_been_a_change := false } :: rest)).1
      rw [h2] at hpre
      cases exc2 with
      | none =>
          rw [hu, update_after_react_of_ok compute _ _ s2 h2]
          refine ⟨node_run_update compute s2, none, rfl, ?_⟩
          simpa [node_run_update] using hpre.trans hs1
      | some e =>
          rw [hu, update_after_react_of_err compute _ _ s2 e h2]
          exact ⟨s2, some e, rfl, hpre.trans hs1⟩

/-- Witness for C4: a concrete two-node chain with the upstream flag up
and an initialized downstream node. -/
theorem change_flag_propagates_one_hop_witness :
    (let A := { mkNode "A" [] [] [("a", some 1)] with
                  there_has_been_a_change := true }
     let B := { mkNode "B" [] ["a"] [] with
                  should_initialize_flag := PyFlag.pyFalse,
                  saved_from_upstream := some [("a", some 1)] }
     A.there_has_been_a_change = true ∧
     the_change_requires_reinitialization { B with output := none } [A]
       = Except.ok false ∧
     ∃ B' exc, node_update (fun _ => none) B [A] =
         ((B', [{ A with there_has_been_a_change := false }]), exc) ∧
       B'.there_has_been_a_change = true) :=
  ⟨rfl, rfl, change_flag_propagates_one_hop (fun _ => none) _ _ [] false rfl rfl⟩

/-- C5: `update()` clears `output` first and nothing before the compute
step repopulates it: if the pull raises (computation skipped), `output`
is absent rather than a value of a previous cycle; if the pull completes,
`output` is exactly what the compute step of this cycle produced, run
against a state whose `output` had been cleared. -/
theorem update_clears_output_and_computes_fresh
    (compute : NodeState → Option Nat) (s : NodeState) (anc : List NodeState) :
    (let r := node_update compute s anc
     (r.2.isSome = true → r.1.1.output = none) ∧
     (r.2 = none → ∃ s2, r.1.1 = node_run_update compute s2 ∧ s2.output = none)) := by
  cases hch : there_was_a_change_upstream anc with
  | false =>
      rw [node_update_of_no_change compute s anc hch]
      cases h2 : node_reset_or_reinit { s with output := none } anc with
      | mk s2 exc2 =>
          have hout := (reset_or_reinit_preserves { s with output := none } anc).2
          rw [h2] at hout
          cases exc2 with
          | some e =>
              rw [update_after_react_of_err compute _ _ s2 e h2]
              exact ⟨fun _ => by simpa using hout, fun hc => Option.noConfusion hc⟩
          | none =>
              rw [update_after_react_of_ok compute _ _ s2 h2]
              exact ⟨fun hc => by simp at hc, fun _ => ⟨s2, rfl, by simpa using hout⟩⟩
  | true =>
      rcases hre : node_react { s with output := none } anc with ⟨s1, anc1, exc1⟩
      have hro : s1.output = none := by
        have hpo := node_react_preserves_output { s with output := none } anc
        rw [hre] at hpo
        simpa using hpo
      cases exc1 with
      | some e =>
          rw [node_update_of_change_err compute s anc s1 anc1 e hch hre]
          exact ⟨fun _ => hro, fun hc => Option.noConfusion hc⟩
      | none =>
          rw [node_update_of_change_ok compute s anc s1 anc1 hch hre]
          cases h2 : node_reset_or_reinit s1 anc1 with
          | mk s2 exc2 =>
              have hout := (reset_or_reinit_preserves s1 anc1).2
              rw [h2] at hout
              cases exc2 with
              | some e =>
                  rw [update_after_react_of_err compute _ _ s2 e h2]
                  exact ⟨fun _ => by simpa using hout.trans hro,
                         fun hc => Option.noConfusion hc⟩
              | none =>
                  rw [update_after_react_of_ok compute _ _ s2 h2]
                  exact ⟨fun hc => by simp at hc,
                         fun _ => ⟨s2, rfl, by simpa using hout.trans hro⟩⟩

/-- Witness for C5: a successful pull on a fresh node computes a fresh
output against a cleared state. -/
theorem update_clears_output_and_computes_fresh_witness :
    (∃ s2, (node_update (fun _ => some 7) (mkNode "N" [] [] []) []).1.1
        = node_run_update (fun _ => some 7) s2 ∧ s2.output = none) :=
  (update_clears_output_and_computes_fresh (fun _ => some 7)
    (mkNode "N" [] [] []) []).2 rfl

/-- Walking the chain returns the value of the first (nearest) ancestor
that exposes the attribute, skipping ancestors that do not. -/
theorem traverse_ok_of_nearest (item : String) (pre : List NodeState) :
    ∀ (cls : String) (a : NodeState) (post : List NodeState) (v : Option Nat),
      (∀ p ∈ pre, getattrOn p item = none) → getattrOn a item = some v →
      traverse_back_and_find cls (pre ++ a :: post) item = Except.ok v := by
  induction pre with
  | nil =>
      intro cls a post v _ ha
      simp only [List.nil_append]
      unfold traverse_back_and_find
      rw [ha]
  | cons p pre ih =>
      intro cls a post v hpre ha
      have hp : getattrOn p item = none := hpre p (List.mem_cons_self _ _)
      simp only [List.cons_append]
      unfold traverse_back_and_find
      rw [hp, ih p.className a post v (fun q hq => hpre q (List.mem_cons_of_mem _ hq)) ha]

/-- When no ancestor exposes the attribute, the traversal fails with an
error naming the class of the original requesting node (every intermediate
failure is re-wrapped on the way out). -/
theorem traverse_err_of_absent (item : String) (ancestors : List NodeState) :
    ∀ cls : String, (∀ a ∈ ancestors, getattrOn a item = none) →
      traverse_back_and_find cls ancestors item
        = Except.error (PyErr.missingUpstreamAttribute cls item) := by
  induction ancestors with
  | nil => intro cls _; rfl
  | cons p rest ih =>
      intro cls habs
      have hp : getattrOn p item = none := habs p (List.mem_cons_self _ _)
      have hrec := ih p.className (fun q hq => habs q (List.mem_cons_of_mem _ hq))
      unfold traverse_back_and_find
      rw [hp, hrec]

/-- C7: ancestor traversal returns the attribute value of the nearest
ancestor exposing it; when no ancestor up to the chain head exposes the
name, it fails with `MissingUpstreamAttribute` naming the original
type of the requesting node and the attribute. -/
theorem traverse_nearest_or_missing (cls item : String) (ancestors : List NodeState) :
    (∀ (pre : List NodeState) (a : NodeState) (post : List NodeState) (v : Option Nat),
       ancestors = pre ++ a :: post →
       (∀ p ∈ pre, getattrOn p item = none) → getattrOn a item = some v →
       traverse_back_and_find cls ancestors item = Except.ok v) ∧
    ((∀ a ∈ ancestors, getattrOn a item = none) →
       traverse_back_and_find cls ancestors item
         = Except.error (PyErr.missingUpstreamAttribute cls item)) := by
  constructor
  · intro pre a post v heq hpre ha
    rw [heq]
    exact traverse_ok_of_nearest item pre cls a post v hpre ha
  · intro habs
    exact traverse_err_of_absent item ancestors cls habs

/-- Witness for C7 on a three-node chain: the middle ancestor lacks the
attribute, the head exposes it; a name nobody exposes fails naming the
requester. -/
theorem traverse_nearest_or_missing_witness :
    (([mkNode "Mid" [] [] [], mkNode "Src" [] [] [("freq", some 5)]] : List NodeState)
       = [mkNode "Mid" [] [] []] ++ mkNode "Src" [] [] [("freq", some 5)] :: [] ∧
     traverse_back_and_find "Proc"
       [mkNode "Mid" [] [] [], mkNode "Src" [] [] [("freq", some 5)]] "freq"
       = Except.ok (some 5)) ∧
    ((∀ a ∈ ([mkNode "Mid" [] [] [], mkNode "Src" [] [] [("freq", some 5)]] : List NodeState),
        getattrOn a "gain" = none) ∧
     traverse_back_and_find "Proc"
       [mkNode "Mid" [] [] [], mkNode "Src" [] [] [("freq", some 5)]] "gain"
       = Except.error (PyErr.missingUpstreamAttribute "Proc" "gain")) :=
  ⟨⟨rfl,
    (traverse_nearest_or_missing "Proc" "freq"
        [mkNode "Mid" [] [] [], mkNode "Src" [] [] [("freq", some 5)]]).1
      [mkNode "Mid" [] [] []] (mkNode "Src" [] [] [("freq", some 5)]) [] (some 5)
      rfl (by decide) rfl⟩,
   ⟨by decide,
    (traverse_nearest_or_missing "Proc" "gain"
        [mkNode "Mid" [] [] [], mkNode "Src" [] [] [("freq", some 5)]]).2
      (by decide)⟩⟩

/-- C1: a node whose reset-trigger tuple holds `foo`, already
initialized, no predecessor, both pending flags down.  Setting `foo`
does schedule a reset (`_should_reset` becomes the integer `1`) and
raises the changed flag — yet the next `update()` does not execute
`reset()` (only the compute hook runs: the log gains `opUpdate` alone),
because `_reset_or_reinitialize_if_needed` tests `_should_reset is True`
and the integer `1` is not identical to `True`.  Both pending flags are
false afterwards.  This refutes the claim that such an `update()`
executes `reset()`. -/
theorem reset_trigger_mutation_reset_skipped_on_update :
    (let s0 := { mkNode "N" ["foo"] [] [("foo", some 1)] with
                   should_initialize_flag := PyFlag.pyFalse,
                   saved_from_upstream := some [] }
     let s1 := (node_setattr (fun _ _ => true) s0 "foo" (some 2)).1
     s1.should_reset = PyFlag.pyOne ∧ s1.there_has_been_a_change = true ∧
     (let r := node_update (fun _ => none) s1 []
      r.2 = none ∧ r.1.1.log = [Op.opUpdate] ∧
      r.1.1.should_initialize_flag = PyFlag.pyFalse ∧
      r.1.1.should_reset = PyFlag.pyFalse)) := by
  refine ⟨by decide, by decide, rfl, by decide, by decide, by decide⟩

/-- C3: when `update()` resolves the pending flags with both
`_should_initialize_flag` and `_should_reset` true, only `initialize` runs
(the log gains exactly `opInitialize`; `reset` is not also run), and
both flags are false afterwards. -/
theorem both_pending_flags_initialize_supersedes_reset
    (s : NodeState) (ancestors : List NodeState) (snap : List (String × Option Nat))
    (hi : s.should_initialize_flag = PyFlag.pyTrue)
    (hr : s.should_reset = PyFlag.pyTrue)
    (hs : build_snapshot s.className ancestors s.reinitTriggers = Except.ok snap) :
    (let r := node_reset_or_reinit s ancestors
     r.2 = none ∧ r.1.log = s.log ++ [Op.opInitialize] ∧
     r.1.should_initialize_flag = PyFlag.pyFalse ∧
     r.1.should_reset = PyFlag.pyFalse) := by
  simp only [node_reset_or_reinit, node_initialize_step, hi, hr, hs, PyFlag.isTrue]
  exact ⟨rfl, rfl, rfl, rfl⟩

/-- Witness for C3 at a concrete node (both flags up, empty reinit
triggers, no ancestors). -/
theorem both_pending_flags_initialize_supersedes_reset_witness :
    (let w := { mkNode "N" [] [] [] with
                  should_initialize_flag := PyFlag.pyTrue, should_reset := PyFlag.pyTrue }
     w.should_initialize_flag = PyFlag.pyTrue ∧ w.should_reset = PyFlag.pyTrue ∧
     build_snapshot w.className [] w.reinitTriggers = Except.ok [] ∧
     (let r := node_reset_or_reinit w []
      r.2 = none ∧ r.1.log = w.log ++ [Op.opInitialize] ∧
      r.1.should_initialize_flag = PyFlag.pyFalse ∧
      r.1.should_reset = PyFlag.pyFalse)) :=
  ⟨rfl, rfl, rfl,
   both_pending_flags_initialize_supersedes_reset _ [] [] rfl rfl rfl⟩

/-- C6: when the subclass validator (`_check_value`) rejects a mutation,
`__setattr__` raises before committing anything: the whole state is
unchanged (in particular the attribute keeps its prior value and
neither `_should_reset` nor `there_has_been_a_change` is touched) and
the `InvalidConfiguration` failure is reported synchronously to the
caller. -/
theorem rejected_mutation_leaves_state_unchanged
    (check : String → Option Nat → Bool) (s : NodeState) (key : String)
    (value : Option Nat) (h : check key value = false) :
    (let r := node_setattr check s key value
     r.1 = s ∧ getattrOn r.1 key = getattrOn s key ∧
     r.1.should_reset = s.should_reset ∧
     r.1.there_has_been_a_change = s.there_has_been_a_change ∧
     r.2 = some PyErr.invalidConfiguration) := by
  simp only [node_setattr, h]
  exact ⟨rfl, rfl, rfl, rfl, rfl⟩

/-- Witness for C6: a validator that rejects everything leaves a
concrete node unchanged and reports the failure. -/
theorem rejected_mutation_leaves_state_unchanged_witness :
    ((fun (_ : String) (_ : Option Nat) => false) "foo" (some 5) = false ∧
     (let w := mkNode "N" ["foo"] [] [("foo", some 1)]
      let r := node_setattr (fun _ _ => false) w "foo" (some 5)
      r.1 = w ∧ getattrOn r.1 "foo" = getattrOn w "foo" ∧
      r.1.should_reset = w.should_reset ∧
      r.1.there_has_been_a_change = w.there_has_been_a_change ∧
      r.2 = some PyErr.invalidConfiguration)) :=
  ⟨rfl, rejected_mutation_leaves_state_unchanged (fun _ _ => false) _ "foo" (some 5) rfl⟩

/-- Once `_is_alive` is `False`, latching it to `False` again is the
identity on the state. -/
theorem source_latch_idem (s : SourceState) (h : s.is_alive_attr = some false) :
    ({ s with is_alive_attr := some false } : SourceState) = s := by
  cases s
  simp_all

/-- Equation: expiry on a self-destructing source with both lifetime
fields present. -/
theorem source_expire_dead_eq (s : SourceState) (t : Nat)
    (hd : s.should_self_destruct = true) (bt ttl : Nat)
    (hbt : s.birthtime = some bt) (httl : s.seconds_to_live = some ttl) :
    source_expire t s
      = Except.ok (if bt + ttl < t then { s with is_alive_attr := some false } else s) := by
  unfold source_expire
  rw [hd, hbt, httl]
  rfl

/-- Equation: expiry is the identity when no lifetime was configured. -/
theorem source_expire_no_destruct_eq (s : SourceState) (t : Nat)
    (hd : s.should_self_destruct = false) :
    source_expire t s = Except.ok s := by
  unfold source_expire
  rw [hd]
  rfl

/-- Equation: expiry raises `TypeError` when `_birthtime` is still
`None` (`None + int` is unsupported). -/
theorem source_expire_no_birth_eq (s : SourceState) (t : Nat)
    (hd : s.should_self_destruct = true) (hbt : s.birthtime = none) :
    source_expire t s = Except.error PyErr.typeError := by
  unfold source_expire
  rw [hd, hbt]
  rfl

/-- Equation: expiry raises `TypeError` when `_seconds_to_live` is
absent-as-`None` (unreachable for states built by the constructor). -/
theorem source_expire_no_ttl_eq (s : SourceState) (t : Nat)
    (hd : s.should_self_destruct = true) (bt : Nat)
    (hbt : s.birthtime = some bt) (httl : s.seconds_to_live = none) :
    source_expire t s = Except.error PyErr.typeError := by
  unfold source_expire
  rw [hd, hbt, httl]
  rfl

/-- A successful expiry check preserves the configuration fields, and
under self-destruction it certifies that `_birthtime` and
`_seconds_to_live` were present. -/
theorem source_expire_ok_fields (s s2 : SourceState) (t : Nat)
    (h : source_expire t s = Except.ok s2) :
    s2.should_self_destruct = s.should_self_destruct ∧
    s2.birthtime = s.birthtime ∧ s2.seconds_to_live = s.seconds_to_live ∧
    (s.should_self_destruct = true →
      (∃ bt, s.birthtime = some bt) ∧ ∃ ttl, s.seconds_to_live = some ttl) := by
  by_cases hd : s.should_self_destruct = true
  · cases hbt : s.birthtime with
    | none =>
        rw [source_expire_no_birth_eq s t hd hbt] at h
        exact Except.noConfusion h
    | some bt =>
        cases httl : s.seconds_to_live with
        | none =>
            rw [source_expire_no_ttl_eq s t hd bt hbt httl] at h
            exact Except.noConfusion h
        | some ttl =>
            rw [source_expire_dead_eq s t hd bt ttl hbt httl] at h
            injection h with h
            by_cases hlt : bt + ttl < t
            · rw [if_pos hlt] at h
              rw [← h]
              exact ⟨rfl, hbt, httl, fun _ => ⟨⟨bt, rfl⟩, ⟨ttl, rfl⟩⟩⟩
            · rw [if_neg hlt] at h
              rw [← h]
              exact ⟨rfl, hbt, httl, fun _ => ⟨⟨bt, rfl⟩, ⟨ttl, rfl⟩⟩⟩
  · have hd2 : s.should_self_destruct = false := by simpa using hd
    rw [source_expire_no_destruct_eq s t hd2] at h
    injection h with h
    rw [← h]
    exact ⟨rfl, rfl, rfl, fun hc => absurd (hd2.symm.trans hc) (by decide)⟩

/-- When an `is_alive` read answered `False`, the returned state has the
flag latched to `False` and (under self-destruction) its birth time and
lifetime present. -/
theorem source_alive_false_latched (s s1 : SourceState) (t0 : Nat)
    (h : source_is_alive t0 s = Except.ok (s1, false)) :
    s1.is_alive_attr = some false ∧
    (s1.should_self_destruct = true →
      (∃ bt, s1.birthtime = some bt) ∧ ∃ ttl, s1.seconds_to_live = some ttl) := by
  unfold source_is_alive at h
  cases hex : source_expire t0 s with
  | error e =>
      rw [hex] at h
      exact Except.noConfusion h
  | ok s2 =>
      have hfe := source_expire_ok_fields s s2 t0 hex
      simp only [hex] at h
      cases hia : s2.is_alive_attr with
      | none =>
          simp only [hia] at h
          exact Except.noConfusion h
      | some b =>
          simp only [hia, Except.ok.injEq, Prod.mk.injEq] at h
          obtain ⟨hs, hb⟩ := h
          subst hs
          subst hb
          obtain ⟨hsd, hbt, httl, hcert⟩ := hfe
          refine ⟨hia, fun hd => ?_⟩
          obtain ⟨⟨bt, hbt0⟩, ⟨ttl, httl0⟩⟩ := hcert (hsd.symm.trans hd)
          exact ⟨⟨bt, hbt.trans hbt0⟩, ⟨ttl, httl.trans httl0⟩⟩

/-- An expiry check on a state whose `_is_alive` is already latched
`False` (with its lifetime fields in place) changes nothing. -/
theorem source_expire_latched (s : SourceState) (t : Nat)
    (hia : s.is_alive_attr = some false)
    (hfields : s.should_self_destruct = true →
      (∃ bt, s.birthtime = some bt) ∧ ∃ ttl, s.seconds_to_live = some ttl) :
    source_expire t s = Except.ok s := by
  by_cases hd : s.should_self_destruct = true
  · obtain ⟨⟨bt, hbt⟩, ⟨ttl, httl⟩⟩ := hfields hd
    rw [source_expire_dead_eq s t hd bt ttl hbt httl]
    by_cases hlt : bt + ttl < t
    · rw [if_pos hlt, source_latch_idem s hia]
    · rw [if_neg hlt]
  · have hd2 : s.should_self_destruct = false := by simpa using hd
    exact source_expire_no_destruct_eq s t hd2

/-- Reading `is_alive` on a latched-dead state answers `False` and
mutates nothing. -/
theorem source_is_alive_latched (s : SourceState) (t : Nat)
    (hia : s.is_alive_attr = some false)
    (hex : source_expire t s = Except.ok s) :
    source_is_alive t s = Except.ok (s, false) := by
  simp only [source_is_alive, hex, hia]

/-- C8: once an `is_alive` query has answered `False`, every subsequent
pull leaves `output` absent: with the pull having cleared `output`, the
spec-modelled compute step of a concrete source is a no-op producing no
data, at any later wall-clock time and whatever fresh data was
available. -/
theorem dead_source_stays_silent (s s1 : SourceState) (t0 : Nat)
    (halive : source_is_alive t0 s = Except.ok (s1, false))
    (t : Nat) (data : Option Nat) (s2 : SourceState)
    (hs2 : s2 = { s1 with node := { s1.node with output := none } }) :
    source_compute t data s2 = Except.ok s2 ∧ s2.node.output = none := by
  obtain ⟨hia, hfields⟩ := source_alive_false_latched s s1 t0 halive
  subst hs2
  have hia2 : ({ s1 with node := { s1.node with output := none } } : SourceState).is_alive_attr
      = some false := hia
  have hfields2 : ({ s1 with node := { s1.node with output := none } } : SourceState).should_self_destruct = true →
      (∃ bt, ({ s1 with node := { s1.node with output := none } } : SourceState).birthtime = some bt) ∧
      ∃ ttl, ({ s1 with node := { s1.node with output := none } } : SourceState).seconds_to_live = some ttl :=
    hfields
  have hexp := source_expire_latched _ t hia2 hfields2
  have hal := source_is_alive_latched _ t hia2 hexp
  constructor
  · simp only [source_compute, hal, Bool.false_eq_true, if_false]
  · rfl

/-- Witness for C8: a one-second source initialized at time 0, found
dead at time 5, stays silent at time 9. -/
theorem dead_source_stays_silent_witness :
    (source_is_alive 5 (source_initialize_step 0 (mkSourceNode "S" [] (some 1)))
       = Except.ok ({ source_initialize_step 0 (mkSourceNode "S" [] (some 1)) with
                        is_alive_attr := some false }, false) ∧
     ({ { source_initialize_step 0 (mkSourceNode "S" [] (some 1)) with
           is_alive_attr := some false } with
         node := { ({ source_initialize_step 0 (mkSourceNode "S" [] (some 1)) with
                        is_alive_attr := some false } : SourceState).node with
                     output := none } } : SourceState)
       = { { source_initialize_step 0 (mkSourceNode "S" [] (some 1)) with
               is_alive_attr := some false } with
           node := { ({ source_initialize_step 0 (mkSourceNode "S" [] (some 1)) with
                          is_alive_attr := some false } : SourceState).node with
                       output := none } } ∧
     source_compute 9 (some 3)
         { { source_initialize_step 0 (mkSourceNode "S" [] (some 1)) with
               is_alive_attr := some false } with
             node := { ({ source_initialize_step 0 (mkSourceNode "S" [] (some 1)) with
                            is_alive_attr := some false } : SourceState).node with
                         output := none } }
       = Except.ok
           { { source_initialize_step 0 (mkSourceNode "S" [] (some 1)) with
                 is_alive_attr := some false } with
               node := { ({ source_initialize_step 0 (mkSourceNode "S" [] (some 1)) with
                              is_alive_attr := some false } : SourceState).node with
                           output := none } }) :=
  ⟨rfl, rfl,
   (dead_source_stays_silent (source_initialize_step 0 (mkSourceNode "S" [] (some 1)))
      { source_initialize_step 0 (mkSourceNode "S" [] (some 1)) with
          is_alive_attr := some false } 5 rfl 9 (some 3) _ rfl).1⟩


/-- C9: a source constructed with a positive lifetime: `initialize()`
records the birth time; `is_alive` queried immediately after
initialization is true; and a query at any wall-clock time `t` answers
false exactly when `t` exceeds `birth_time + lifetime_seconds` — with
no state mutation besides the queries themselves. -/
theorem source_lifetime_controls_is_alive (cls : String) (rt : List String)
    (ttl t0 : Nat) (hpos : 0 < ttl) (s1 : SourceState)
    (hs1 : s1 = source_initialize_step t0 (mkSourceNode cls rt (some ttl))) :
    s1.birthtime = some t0 ∧
    source_is_alive t0 s1 = Except.ok (s1, true) ∧
    ∀ t : Nat, (∃ s2, source_is_alive t s1 = Except.ok (s2, false)) ↔ t0 + ttl < t := by
  subst hs1
  have hexp : ∀ t : Nat,
      source_expire t (source_initialize_step t0 (mkSourceNode cls rt (some ttl)))
        = Except.ok (if t0 + ttl < t then
            { source_initialize_step t0 (mkSourceNode cls rt (some ttl)) with
                is_alive_attr := some false }
          else source_initialize_step t0 (mkSourceNode cls rt (some ttl))) :=
    fun t => source_expire_dead_eq _ t rfl t0 ttl rfl rfl
  have halive_neg : ∀ t : Nat, ¬ t0 + ttl < t →
      source_is_alive t (source_initialize_step t0 (mkSourceNode cls rt (some ttl)))
        = Except.ok (source_initialize_step t0 (mkSourceNode cls rt (some ttl)), true) := by
    intro t hnot
    unfold source_is_alive
    rw [hexp t, if_neg hnot]
    rfl
  have halive_pos : ∀ t : Nat, t0 + ttl < t →
      source_is_alive t (source_initialize_step t0 (mkSourceNode cls rt (some ttl)))
        = Except.ok ({ source_initialize_step t0 (mkSourceNode cls rt (some ttl)) with
                         is_alive_attr := some false }, false) := by
    intro t hlt
    unfold source_is_alive
    rw [hexp t, if_pos hlt]
  refine ⟨rfl, halive_neg t0 (by omega), ?_⟩
  intro t
  constructor
  · rintro ⟨s2, hs2⟩
    by_contra hnot
    rw [halive_neg t hnot] at hs2
    simp at hs2
  · intro hlt
    exact ⟨_, halive_pos t hlt⟩

/-- Witness for C9: a source with lifetime 2 initialized at time 10. -/
theorem source_lifetime_controls_is_alive_witness :
    ((0 : Nat) < 2 ∧
     source_initialize_step 10 (mkSourceNode "Src" [] (some 2))
       = source_initialize_step 10 (mkSourceNode "Src" [] (some 2)) ∧
     ((source_initialize_step 10 (mkSourceNode "Src" [] (some 2))).birthtime = some 10 ∧
      source_is_alive 10 (source_initialize_step 10 (mkSourceNode "Src" [] (some 2)))
        = Except.ok (source_initialize_step 10 (mkSourceNode "Src" [] (some 2)), true) ∧
      ∀ t : Nat,
        (∃ s2, source_is_alive t (source_initialize_step 10 (mkSourceNode "Src" [] (some 2)))
            = Except.ok (s2, false)) ↔ 10 + 2 < t)) :=
  ⟨by decide, rfl,
   source_lifetime_controls_is_alive "Src" [] 2 10 (by decide) _ rfl⟩

/-- C10: reading `is_alive` succeeds only on a source constructed with a
lifetime and initialized at least once: without a lifetime the read
raises `AttributeError` (`_is_alive` is never created), with a lifetime
but before the first `initialize()` it raises `TypeError` (the expiry
comparison hits `_birthtime = None`), and after an `initialize()` on a
lifetime-carrying source the read succeeds. -/
theorem is_alive_read_requires_lifetime_and_init (cls : String) (rt : List String) :
    (∀ now : Nat, source_is_alive now (mkSourceNode cls rt none)
        = Except.error PyErr.attributeError) ∧
    (∀ now t0 : Nat, source_is_alive now (source_initialize_step t0 (mkSourceNode cls rt none))
        = Except.error PyErr.attributeError) ∧
    (∀ ttl now : Nat, source_is_alive now (mkSourceNode cls rt (some ttl))
        = Except.error PyErr.typeError) ∧
    (∀ ttl t0 now : Nat, ∃ (s2 : SourceState) (b : Bool),
        source_is_alive now (source_initialize_step t0 (mkSourceNode cls rt (some ttl)))
          = Except.ok (s2, b)) := by
  refine ⟨fun now => rfl, fun now t0 => rfl, fun ttl now => rfl, fun ttl t0 now => ?_⟩
  have hexp := source_expire_dead_eq
    (source_initialize_step t0 (mkSourceNode cls rt (some ttl))) now rfl t0 ttl rfl rfl
  by_cases hlt : t0 + ttl < now
  · refine ⟨{ source_initialize_step t0 (mkSourceNode cls rt (some ttl)) with
                is_alive_attr := some false }, false, ?_⟩
    unfold source_is_alive
    rw [hexp, if_pos hlt]
  · refine ⟨source_initialize_step t0 (mkSourceNode cls rt (some ttl)), true, ?_⟩
    unfold source_is_alive
    rw [hexp, if_neg hlt]
    rfl
